import Mathlib

/-!
# Verification of the dummy-mcp BMI client/server

Shallow embedding of the two source files of the repository:

* `bmi_server.py` — the tools `calculate_bmi` and `get_bmi_category`.
  Python floats are modelled as rationals (`ℚ`); a raised `ValueError`
  is modelled as `Except.error` carrying the message string.
* `bmi_client.py` — the prompt builder
  `get_prompt_to_identify_tool_and_arguments` and the resolution pipeline
  of `run` (build prompt → call the language model → `json.loads` →
  `session.call_tool`).  The language-model round trip and the JSON
  decoder are external collaborators (the OpenAI API and the Python
  standard library), so they enter the embedding as function parameters;
  the control flow around them is taken from the source.
-/

/-- Embedding of `calculate_bmi` from `bmi_server.py`: raises
`ValueError("Height must be greater than 0")` (modelled as `Except.error`)
when the height is not strictly positive, otherwise returns the weight
divided by the square of the height. -/
def calculate_bmi (weight height : ℚ) : Except String ℚ :=
  if height ≤ 0 then Except.error "Height must be greater than 0"
  else Except.ok (weight / height ^ 2)

/-- Embedding of `get_bmi_category` from `bmi_server.py`.  Python's chained
comparisons `a <= x < b` are expanded to conjunctions; the boundary
constants `18.5`, `24.9`, `25`, `29.9` are the ones in the source. -/
def get_bmi_category (bmi : ℚ) : String :=
  if bmi < 18.5 then "Underweight"
  else if 18.5 ≤ bmi ∧ bmi < 24.9 then "Normal weight"
  else if 25 ≤ bmi ∧ bmi < 29.9 then "Overweight"
  else "Obesity"

/-- The category bands exactly as the specification words them (boundaries
18.5, 25 and 30), kept separate from the source embedding so the two can
be compared. -/
def spec_bmi_category (bmi : ℚ) : String :=
  if bmi < 18.5 then "Underweight"
  else if bmi < 25 then "Normal weight"
  else if bmi < 30 then "Overweight"
  else "Obesity"

/-- A tool descriptor as the client consumes it (`tool.name`,
`tool.description`, `tool.inputSchema`); the schema only ever appears
rendered into the prompt string, so it is kept as a string. -/
structure ToolDescriptor where
  name : String
  description : String
  inputSchema : String

/-- Embedding of `get_prompt_to_identify_tool_and_arguments` from
`bmi_client.py`: the f-string pieces of the source become string
concatenation. -/
def get_prompt_to_identify_tool_and_arguments
    (query : String) (tools : List ToolDescriptor) : String :=
  let tools_description := String.intercalate "\n"
    (tools.map (fun tool =>
      "- " ++ tool.name ++ ", " ++ tool.description ++ ", " ++ tool.inputSchema ++ " "))
  "You are a helpful assistant with access to these tools:\n\n"
    ++ tools_description ++ "\n"
    ++ "Choose the appropriate tool based on the user's question. \n"
    ++ "User's Question: " ++ query ++ "\n"
    ++ "If no tool is needed, reply directly.\n\n"
    ++ "IMPORTANT: When you need to use a tool, you must ONLY respond with "
    ++ "the exact JSON object format below, nothing else:\n"
    ++ "Keep the values in str "
    ++ "\x7b\n"
    ++ "    \"tool\": \"tool-name\",\n"
    ++ "    \"arguments\": \x7b\n"
    ++ "        \"argument-name\": \"value\"\n"
    ++ "    \x7d\n"
    ++ "\x7d\n\n"

/-- JSON values, as produced by the client's `json.loads` step.  Numbers
are modelled as rationals, objects as association lists. -/
inductive Json where
  | null
  | bool (b : Bool)
  | num (q : ℚ)
  | str (s : String)
  | arr (elems : List Json)
  | obj (fields : List (String × Json))

/-- Python's `value[key]` on a decoded JSON value: returns the field of an
object, and `none` when the value is not an object (`TypeError`) or the
key is absent (`KeyError`) — both exceptions abort the pipeline. -/
def Json.getField : Json → String → Option Json
  | Json.obj fields, key => fields.lookup key
  | _, _ => none

/-- Errors the resolution pipeline can surface: the model's output failed
to decode or lacked a required key, or the dispatched tool returned an
error. -/
inductive RunError where
  | malformedModelOutput
  | toolError (msg : String)

/-- Outcome of one `run` invocation: the calls that reached
`session.call_tool` (the registry), and the result or error returned to
the caller. -/
structure RunTrace where
  dispatched : List (Json × Json)
  result : Except RunError String

/-- The tail of `run` in `bmi_client.py`, from the language model's
response text onward: `tool_call = json.loads(llm_response)` followed by
`session.call_tool(tool_call["tool"], arguments=tool_call["arguments"])`.
A decode failure, or a missing `"tool"`/`"arguments"` key (both argument
lookups are evaluated before the call), raises before any dispatch; the
source has no tool-name check of its own. -/
def resolveAndDispatch (loads : String → Option Json)
    (registry : Json → Json → Except String String)
    (llm_response : String) : RunTrace :=
  match loads llm_response with
  | none => { dispatched := [], result := Except.error RunError.malformedModelOutput }
  | some tool_call =>
    match tool_call.getField "tool", tool_call.getField "arguments" with
    | some name, some args =>
      { dispatched := [(name, args)],
        result :=
          match registry name args with
          | Except.ok r => Except.ok r
          | Except.error e => Except.error (RunError.toolError e) }
    | _, _ => { dispatched := [], result := Except.error RunError.malformedModelOutput }

/-- Embedding of `run` from `bmi_client.py`: build the prompt from the
query and the tool catalog, send it to the language model, then decode
and dispatch the response.  `llm` and `loads` stand for the external
OpenAI round trip and `json.loads`. -/
def run (llm : String → String) (loads : String → Option Json)
    (registry : Json → Json → Except String String)
    (tools : List ToolDescriptor) (query : String) : RunTrace :=
  resolveAndDispatch loads registry
    (llm (get_prompt_to_identify_tool_and_arguments query tools))

/-- Argument coercion on the server side: the registered tools take
numbers.  (Pydantic's string-to-float coercion is not exercised by any
claim and is not modelled.) -/
def asNum : Json → Option ℚ
  | Json.num q => some q
  | _ => none

/-- The server's registry dispatch: the two tools registered with
`@mcp.tool()` in `bmi_server.py`, looked up by name; an unregistered name
is answered with an unknown-tool error (the framework's behaviour for
`call_tool` on a name it does not know). -/
def serverCallTool (name : Json) (args : Json) : Except String String :=
  match name with
  | Json.str "calculate_bmi" =>
    match (args.getField "weight").bind asNum, (args.getField "height").bind asNum with
    | some w, some h =>
      match calculate_bmi w h with
      | Except.ok v => Except.ok (toString v)
      | Except.error e => Except.error e
    | _, _ => Except.error "Invalid arguments for calculate_bmi"
  | Json.str "get_bmi_category" =>
    match (args.getField "bmi").bind asNum with
    | some b => Except.ok (get_bmi_category b)
    | none => Except.error "Invalid arguments for get_bmi_category"
  | Json.str other => Except.error ("Unknown tool: " ++ other)
  | _ => Except.error "Unknown tool"

/-- Claim C1, counterexample: at `bmi = 24.9` the source returns
"Obesity" while the bands of the claim (boundaries 18.5, 25, 30) give
"Normal weight", so `get_bmi_category` does not realise the claimed
bands. -/
theorem get_bmi_category_boundary_counterexample :
    get_bmi_category 24.9 ≠ spec_bmi_category 24.9 := by
  have h1 : get_bmi_category 24.9 = "Obesity" := by norm_num [get_bmi_category]
  have h2 : spec_bmi_category 24.9 = "Normal weight" := by norm_num [spec_bmi_category]
  rw [h1, h2]
  decide

/-- Claim C1, amended: `get_bmi_category` returns the band given by the
source's boundary constants — "Underweight" when bmi < 18.5,
"Normal weight" when 18.5 ≤ bmi < 24.9, "Overweight" when
25 ≤ bmi < 29.9, and "Obesity" when 24.9 ≤ bmi < 25 or bmi ≥ 29.9, so
the gaps [24.9, 25) and [29.9, 30) fall into "Obesity". -/
theorem get_bmi_category_code_bands (bmi : ℚ) :
    (bmi < 18.5 → get_bmi_category bmi = "Underweight")
      ∧ (18.5 ≤ bmi ∧ bmi < 24.9 → get_bmi_category bmi = "Normal weight")
      ∧ (25 ≤ bmi ∧ bmi < 29.9 → get_bmi_category bmi = "Overweight")
      ∧ ((24.9 ≤ bmi ∧ bmi < 25) ∨ 29.9 ≤ bmi → get_bmi_category bmi = "Obesity") := by
  refine ⟨fun h => ?_, fun h => ?_, fun h => ?_, fun h => ?_⟩
  · unfold get_bmi_category
    rw [if_pos h]
  · unfold get_bmi_category
    rw [if_neg (not_lt.mpr h.1), if_pos h]
  · have h1 : ¬ bmi < 18.5 := by push_neg; linarith [h.1]
    have h2 : ¬ (18.5 ≤ bmi ∧ bmi < 24.9) := by rintro ⟨-, hb⟩; linarith [h.1]
    unfold get_bmi_category
    rw [if_neg h1, if_neg h2, if_pos h]
  · have hge : 24.9 ≤ bmi := by
      rcases h with ⟨h1, -⟩ | h1
      · exact h1
      · linarith
    have h1 : ¬ bmi < 18.5 := by push_neg; linarith
    have h2 : ¬ (18.5 ≤ bmi ∧ bmi < 24.9) := by rintro ⟨-, hb⟩; linarith
    have h3 : ¬ (25 ≤ bmi ∧ bmi < 29.9) := by
      rintro ⟨ha, hb⟩
      rcases h with ⟨-, hc⟩ | hc <;> linarith
    unfold get_bmi_category
    rw [if_neg h1, if_neg h2, if_neg h3]

/-- Witness for the amended claim C1 at a point inside the Overweight band. -/
theorem get_bmi_category_code_bands_witness :
    get_bmi_category 26 = "Overweight" :=
  (get_bmi_category_code_bands 26).2.2.1 ⟨by norm_num, by norm_num⟩

/-- Claim C2: for every weight > 0 and height > 0, `calculate_bmi`
returns exactly weight / height², raising no error. -/
theorem calculate_bmi_pos_formula (w h : ℚ) (hw : 0 < w) (hh : 0 < h) :
    calculate_bmi w h = Except.ok (w / h ^ 2) := by
  unfold calculate_bmi
  rw [if_neg (not_le.mpr hh)]

/-- Witness for claim C2 at weight 80, height 1.78. -/
theorem calculate_bmi_pos_formula_witness :
    calculate_bmi 80 1.78 = Except.ok (80 / 1.78 ^ 2) :=
  calculate_bmi_pos_formula 80 1.78 (by norm_num) (by norm_num)

/-- Claim C3: for every weight and every height ≤ 0, `calculate_bmi`
fails with the invalid-argument error rather than returning a value, and
the registry dispatch surfaces that error to the caller unmodified. -/
theorem calculate_bmi_nonpos_height_error (w h : ℚ) (hh : h ≤ 0) :
    calculate_bmi w h = Except.error "Height must be greater than 0"
      ∧ serverCallTool (Json.str "calculate_bmi")
          (Json.obj [("weight", Json.num w), ("height", Json.num h)])
        = Except.error "Height must be greater than 0" := by
  have hbmi : calculate_bmi w h = Except.error "Height must be greater than 0" := by
    unfold calculate_bmi
    rw [if_pos hh]
  refine ⟨hbmi, ?_⟩
  have hred : serverCallTool (Json.str "calculate_bmi")
      (Json.obj [("weight", Json.num w), ("height", Json.num h)])
      = (match calculate_bmi w h with
          | Except.ok v => Except.ok (toString v)
          | Except.error e => Except.error e) := rfl
  rw [hred, hbmi]

/-- Witness for claim C3 at weight 70, height 0. -/
theorem calculate_bmi_nonpos_height_error_witness :
    calculate_bmi 70 0 = Except.error "Height must be greater than 0"
      ∧ serverCallTool (Json.str "calculate_bmi")
          (Json.obj [("weight", Json.num 70), ("height", Json.num 0)])
        = Except.error "Height must be greater than 0" :=
  calculate_bmi_nonpos_height_error 70 0 (le_refl 0)

/-- Claim C4: `get_bmi_category` is total — every rational input lands in
one of the four category strings, with no uncategorised gap. -/
theorem get_bmi_category_total (bmi : ℚ) :
    get_bmi_category bmi = "Underweight" ∨ get_bmi_category bmi = "Normal weight"
      ∨ get_bmi_category bmi = "Overweight" ∨ get_bmi_category bmi = "Obesity" := by
  unfold get_bmi_category
  split
  · exact Or.inl rfl
  · split
    · exact Or.inr (Or.inl rfl)
    · split
      · exact Or.inr (Or.inr (Or.inl rfl))
      · exact Or.inr (Or.inr (Or.inr rfl))

/-- Claim C5: at weight 80 and height 1.78, `calculate_bmi` returns
exactly 80 / 1.78² ≈ 25.25 (within 0.01 of 25.25) and
`get_bmi_category` maps that value to "Overweight". -/
theorem bmi_scenario_80_178 :
    calculate_bmi 80 1.78 = Except.ok (80 / 1.78 ^ 2)
      ∧ |80 / (1.78 : ℚ) ^ 2 - 25.25| < 1 / 100
      ∧ get_bmi_category (80 / 1.78 ^ 2) = "Overweight" := by
  refine ⟨?_, ?_, ?_⟩
  · norm_num [calculate_bmi]
  · rw [abs_sub_lt_iff]
    constructor <;> norm_num
  · norm_num [get_bmi_category]

/-- Claim C6: whenever the language model's response fails to decode as
JSON, or decodes to a value lacking the "tool" or "arguments" key, `run`
fails with the malformed-model-output error and nothing is dispatched to
the registry. -/
theorem run_malformed_output_no_dispatch
    (llm : String → String) (loads : String → Option Json)
    (registry : Json → Json → Except String String)
    (tools : List ToolDescriptor) (query : String)
    (hmal : loads (llm (get_prompt_to_identify_tool_and_arguments query tools)) = none
      ∨ ∃ j, loads (llm (get_prompt_to_identify_tool_and_arguments query tools)) = some j
          ∧ (j.getField "tool" = none ∨ j.getField "arguments" = none)) :
    (run llm loads registry tools query).dispatched = []
      ∧ (run llm loads registry tools query).result
        = Except.error RunError.malformedModelOutput := by
  unfold run resolveAndDispatch
  rcases hmal with hnone | ⟨j, hj, hkey⟩
  · rw [hnone]
    exact ⟨rfl, rfl⟩
  · rw [hj]
    rcases hkey with hk | hk
    · cases ha : j.getField "arguments" <;> simp [hk, ha]
    · cases ht : j.getField "tool" <;> simp [ht, hk]

/-- Witness for claim C6: the response "not json" does not decode, so the
request fails and nothing reaches the registry. -/
theorem run_malformed_output_no_dispatch_witness :
    (run (fun _ => "not json") (fun _ => none) serverCallTool [] "query").dispatched = []
      ∧ (run (fun _ => "not json") (fun _ => none) serverCallTool [] "query").result
        = Except.error RunError.malformedModelOutput :=
  run_malformed_output_no_dispatch _ _ _ _ _ (Or.inl rfl)

/-- Claim C7, behaviour at the failing input: when the model names a tool
that matches no registered descriptor, `run` still dispatches the call to
the registry — the dispatched list is non-empty — and only the registry
answers with an unknown-tool error; the resolver itself never rejects the
name before dispatch. -/
theorem run_unknown_tool_dispatched :
    (run (fun _ => "model output")
        (fun _ => some (Json.obj [("tool", Json.str "no_such_tool"), ("arguments", Json.obj [])]))
        serverCallTool [] "Calculate BMI").dispatched
      = [(Json.str "no_such_tool", Json.obj [])]
    ∧ (run (fun _ => "model output")
        (fun _ => some (Json.obj [("tool", Json.str "no_such_tool"), ("arguments", Json.obj [])]))
        serverCallTool [] "Calculate BMI").result
      = Except.error (RunError.toolError "Unknown tool: no_such_tool") :=
  ⟨rfl, rfl⟩

/-- Claim C8: prompt construction is a pure deterministic function of the
query and the tool catalog — equal inputs give the identical prompt
string. -/
theorem prompt_deterministic (q1 q2 : String) (ts1 ts2 : List ToolDescriptor)
    (hq : q1 = q2) (ht : ts1 = ts2) :
    get_prompt_to_identify_tool_and_arguments q1 ts1
      = get_prompt_to_identify_tool_and_arguments q2 ts2 := by
  rw [hq, ht]

/-- Witness for claim C8 on a concrete query and one-tool catalog. -/
theorem prompt_deterministic_witness :
    get_prompt_to_identify_tool_and_arguments "Calculate BMI for weight 80kg"
        [⟨"calculate_bmi", "Calculate Body Mass Index", "schema"⟩]
      = get_prompt_to_identify_tool_and_arguments "Calculate BMI for weight 80kg"
        [⟨"calculate_bmi", "Calculate Body Mass Index", "schema"⟩] :=
  prompt_deterministic _ _ _ _ rfl rfl

/-- Claim C9: `calculate_bmi` never validates the weight — for positive
height it returns weight / height² for every weight, zero and negative
included, and an error occurs exactly when the height is non-positive. -/
theorem calculate_bmi_no_weight_validation (w h : ℚ) :
    (0 < h → calculate_bmi w h = Except.ok (w / h ^ 2))
      ∧ ((∃ e, calculate_bmi w h = Except.error e) ↔ h ≤ 0) := by
  by_cases hh : h ≤ 0
  · refine ⟨fun hpos => absurd hh (not_le.mpr hpos), ?_, fun _ => ?_⟩
    · intro _
      exact hh
    · refine ⟨"Height must be greater than 0", ?_⟩
      unfold calculate_bmi
      rw [if_pos hh]
  · refine ⟨fun _ => ?_, ?_, fun hle => absurd hle hh⟩
    · unfold calculate_bmi
      rw [if_neg hh]
    · rintro ⟨e, he⟩
      unfold calculate_bmi at he
      rw [if_neg hh] at he
      exact Except.noConfusion he

/-- Witness for claim C9: a negative weight is accepted and produces the
formula value. -/
theorem calculate_bmi_no_weight_validation_witness :
    calculate_bmi (-5) 2 = Except.ok (-5 / 2 ^ 2) :=
  (calculate_bmi_no_weight_validation (-5) 2).1 (by norm_num)

/-- Claim C10: every bmi in [24.9, 25) and every bmi in [29.9, 30) falls
through to the final else branch, so `get_bmi_category` returns
"Obesity" there. -/
theorem get_bmi_category_gap_obesity (bmi : ℚ)
    (hgap : (24.9 ≤ bmi ∧ bmi < 25) ∨ (29.9 ≤ bmi ∧ bmi < 30)) :
    get_bmi_category bmi = "Obesity" := by
  have hge : 24.9 ≤ bmi := by
    rcases hgap with ⟨h1, -⟩ | ⟨h1, -⟩
    · exact h1
    · linarith
  have h1 : ¬ bmi < 18.5 := by push_neg; linarith
  have h2 : ¬ (18.5 ≤ bmi ∧ bmi < 24.9) := by rintro ⟨-, hb⟩; linarith
  have h3 : ¬ (25 ≤ bmi ∧ bmi < 29.9) := by
    rintro ⟨ha, hb⟩
    rcases hgap with ⟨-, hc⟩ | ⟨hc, -⟩ <;> linarith
  unfold get_bmi_category
  rw [if_neg h1, if_neg h2, if_neg h3]

/-- Witness for claim C10 inside the lower gap. -/
theorem get_bmi_category_gap_obesity_witness :
    get_bmi_category 24.95 = "Obesity" :=
  get_bmi_category_gap_obesity 24.95 (Or.inl ⟨by norm_num, by norm_num⟩)
